import Mathlib

set_option maxRecDepth 8000

namespace Seren

/-! Shallow embedding of `src/app.py` (Serentotipo): the orchestration core of
the five-stage prototype-generation pipeline, together with the
model-invocation adapter (`get_api_key` / `get_llm`) over an explicit process
environment, the agent registry `AGENTS_CONFIG`, the LangGraph node functions,
the compiled sequential graph (`runPipeline`), and the single-agent endpoint
`process_agent`.  The external language model is injected as a function from a
call descriptor (sampling parameters plus message list) to generated text or a
failure; a call log records every model invocation a run performs. -/

deriving instance DecidableEq for Except

/-- The process environment (`os.environ`): variable names to optional values. -/
def Env : Type := String → Option String

/-- Python `os.environ[v] = val`. -/
def setVar (env : Env) (v val : String) : Env :=
  fun x => if x = v then some val else env x

/-- The removal effect of Python `os.environ.pop(v)`. -/
def eraseVar (env : Env) (v : String) : Env :=
  fun x => if x = v then none else env x

/-- app.py line 50: the proxy variables cleared by `get_llm`. -/
def proxy_vars : List String :=
  ["HTTP_PROXY", "HTTPS_PROXY", "http_proxy", "https_proxy"]

/-- app.py line 51, `{var: os.environ.pop(var) for var in proxy_vars if var in os.environ}`:
remove each present variable from the environment in order, recording the old
values (in iteration order, as a Python dict preserves insertion order). -/
def popVars : Env → List String → Env × List (String × String)
  | env, [] => (env, [])
  | env, v :: vs =>
    match env v with
    | some val =>
      let r := popVars (eraseVar env v) vs
      (r.1, (v, val) :: r.2)
    | none => popVars env vs

/-- app.py lines 62-63 and 67-68, `for var, value in old_proxies.items(): os.environ[var] = value`. -/
def restoreVars (env : Env) (old : List (String × String)) : Env :=
  old.foldl (fun e p => setVar e p.1 p.2) env

/-- app.py lines 36-39: the error text raised when the key is missing. -/
def missing_key_message : String :=
  "OPENAI_API_KEY não encontrada.\nConfigure via arquivo .env: OPENAI_API_KEY=sk-proj-..."

/-- The first list is a prefix of the second (character by character). -/
def isPrefixChars : List Char → List Char → Bool
  | [], _ => true
  | _ :: _, [] => false
  | p :: ps, c :: cs => p = c && isPrefixChars ps cs

/-- Python `s.startswith(pre)`: `pre`'s characters are a prefix of `s`'s. -/
def starts_with (s pre : String) : Bool :=
  isPrefixChars pre.data s.data

/-- app.py lines 23-45 (`get_api_key`).  Python `if not api_key` is true both
for a missing variable (`os.getenv` returning `None`) and for an empty string. -/
def get_api_key (env : Env) : Except String String :=
  match env "OPENAI_API_KEY" with
  | none => .error missing_key_message
  | some api_key =>
    if api_key = "" then .error missing_key_message
    else if starts_with api_key "sk-" || starts_with api_key "sk-proj-" then .ok api_key
    else .error "OPENAI_API_KEY com formato inválido"

/-- The `ChatOpenAI` client value constructed by `get_llm` (app.py lines 55-60). -/
structure ChatOpenAIConfig where
  model : String
  api_key : String
  temperature : ℚ
  max_tokens : ℕ
  deriving DecidableEq

/-- app.py line 47: the default `temperature` of `get_llm`. -/
def default_temperature : ℚ := 7/10

/-- app.py line 47: the default `max_tokens` of `get_llm`. -/
def default_max_tokens : ℕ := 4000

/-- app.py lines 47-69 (`get_llm`): pop the proxy variables, validate the key
and build the client, restoring the popped variables both on the success path
(lines 62-63) and on the raising path (lines 66-68).  A failing `get_api_key`
models the exception branch; besides the result, the final environment is
returned so the ambient mutation is observable. -/
def get_llm (env : Env) (temperature : ℚ) (max_tokens : ℕ) :
    Except String ChatOpenAIConfig × Env :=
  let cleared := popVars env proxy_vars
  match get_api_key cleared.1 with
  | .ok api_key =>
      (.ok ⟨"gpt-4o-mini", api_key, temperature, max_tokens⟩,
       restoreVars cleared.1 cleared.2)
  | .error e => (.error e, restoreVars cleared.1 cleared.2)

/-- app.py line 328: the startup diagnostic
`f"✓ API Key: {api_key[:15]}...{api_key[-5:]}"`.  Python slices by characters,
so the diagnostic is modelled on the character list of the credential
(`[-5:]` is `drop (length - 5)`, which is the whole string when shorter). -/
def startup_diagnostic (api_key : String) : List Char :=
  "✓ API Key: ".data ++ api_key.data.take 15 ++ "...".data
    ++ api_key.data.drop (api_key.data.length - 5)

/-- `seg` occurs contiguously inside `l`. -/
def isSegmentOf (seg l : List Char) : Prop :=
  ∃ s t, s ++ seg ++ t = l

/-- LangChain chat messages used by app.py (line 13): `SystemMessage` and
`HumanMessage`. -/
inductive Message where
  | system : String → Message
  | human : String → Message
  deriving DecidableEq

/-- One model invocation: the sampling parameters handed to `get_llm` and the
message list handed to `llm.invoke`. -/
structure Call where
  temperature : ℚ
  max_tokens : ℕ
  messages : List Message
  deriving DecidableEq

/-- The external text-generation capability (`get_llm(...)` followed by
`llm.invoke(messages)`): given a call, return generated text or fail. -/
def ModelFn : Type := Call → Except String String

/-- app.py lines 74-83 (`AgentState`). -/
structure AgentState where
  user_input : String
  discovery_output : String
  structure_output : String
  design_output : String
  implementation_output : String
  refinement_output : String
  current_step : String
  error : String
  deriving DecidableEq

/-- One entry of `AGENTS_CONFIG` (app.py lines 88-160).  The temperature is
kept optional to model the dictionary access `agent.get('temperature', 0.7)`
at line 291. -/
structure AgentDef where
  name : String
  system_prompt : String
  temperature : Option ℚ
  deriving DecidableEq

/-- app.py lines 89-107: the `discovery` registry entry. -/
def discovery_config : AgentDef :=
  ⟨"Descoberta & Serendipidade",
   "Você é especialista em descoberta criativa usando serendipidade.\n\n**Conceito Central:**\n[Identifique o núcleo da ideia]\n\n**Direções Serendípitas:**\n1. [Conexão inesperada 1]\n2. [Conexão inesperada 2]\n3. [Conexão inesperada 3]\n\n**Potencial de Inovação:**\n[Avalie o potencial]\n\n**Recomendação:**\n[Sugira abordagem]",
   some (9/10)⟩

/-- app.py lines 108-117: the `structure` registry entry. -/
def structure_config : AgentDef :=
  ⟨"Arquitetura & Estrutura",
   "Arquiteto de software. Defina estrutura técnica:\n\n**Componentes Principais:**\n**Fluxo de Interação:**\n**Estrutura de Dados:**\n**Funcionalidades:**",
   some (7/10)⟩

/-- app.py lines 118-127: the `design` registry entry. -/
def design_config : AgentDef :=
  ⟨"Design & Experiência",
   "Designer UX/UI. Crie proposta visual:\n\n**Paleta de Cores:**\n**Layout:**\n**Elementos Interativos:**\n**Microinterações:**",
   some (7/10)⟩

/-- app.py lines 128-148: the `implementation` registry entry. -/
def implementation_config : AgentDef :=
  ⟨"Implementação",
   "Desenvolvedor frontend. Gere HTML completo:\n\nREGRAS:\n- HTML5 + Tailwind CDN\n- JavaScript vanilla\n- Responsivo\n- SEM localStorage\n\nRETORNE APENAS CÓDIGO HTML.\n\n<!DOCTYPE html>\n<html lang=\"pt-BR\">\n<head>\n    <meta charset=\"UTF-8\">\n    <meta name=\"viewport\" content=\"width=device-width, initial-scale=1.0\">\n    <script src=\"https://cdn.tailwindcss.com\"></script>\n</head>",
   some (7/10)⟩

/-- app.py lines 149-159: the `refinement` registry entry. -/
def refinement_config : AgentDef :=
  ⟨"Refinamento",
   "Otimize o código HTML:\n\n- Performance\n- Acessibilidade (ARIA)\n- Usabilidade\n\nRETORNE CÓDIGO COMPLETO OTIMIZADO.",
   some (7/10)⟩

/-- app.py lines 88-160: the registry, keyed by agent identifier. -/
def AGENTS_CONFIG : String → Option AgentDef := fun agent_id =>
  if agent_id = "discovery" then some discovery_config
  else if agent_id = "structure" then some structure_config
  else if agent_id = "design" then some design_config
  else if agent_id = "implementation" then some implementation_config
  else if agent_id = "refinement" then some refinement_config
  else none

/-- app.py lines 167-171: the call made by the discovery node,
`get_llm(temperature=0.9, max_tokens=1500)` on the system prompt and the raw
user input. -/
def discovery_call (user_input : String) : Call :=
  ⟨9/10, 1500,
   [Message.system discovery_config.system_prompt, Message.human user_input]⟩

/-- app.py lines 179-184: the call made by the structure node,
`get_llm(max_tokens=1500)` on the context `f"Análise:\n{state['discovery_output']}"`. -/
def structure_call (discovery_output : String) : Call :=
  ⟨default_temperature, 1500,
   [Message.system structure_config.system_prompt,
    Message.human ("Análise:\n" ++ discovery_output)]⟩

/-- app.py lines 192-197: the call made by the design node,
`get_llm(max_tokens=1500)` on the context `f"Estrutura:\n{state['structure_output']}"`. -/
def design_call (structure_output : String) : Call :=
  ⟨default_temperature, 1500,
   [Message.system design_config.system_prompt,
    Message.human ("Estrutura:\n" ++ structure_output)]⟩

/-- app.py lines 205-210: the call made by the implementation node,
`get_llm(max_tokens=4000)` on the context
`f"Design:\n{state['design_output']}\n\nEstrutura:\n{state['structure_output']}"`. -/
def implementation_call (design_output structure_output : String) : Call :=
  ⟨default_temperature, 4000,
   [Message.system implementation_config.system_prompt,
    Message.human ("Design:\n" ++ design_output ++ "\n\nEstrutura:\n" ++ structure_output)]⟩

/-- app.py lines 218-223: the call made by the refinement node,
`get_llm(max_tokens=4000)` on the context `f"Código:\n{state['implementation_output']}"`. -/
def refinement_call (implementation_output : String) : Call :=
  ⟨default_temperature, 4000,
   [Message.system refinement_config.system_prompt,
    Message.human ("Código:\n" ++ implementation_output)]⟩

/-- app.py lines 165-175 (`discovery_agent`): one model call, then write the
`discovery_output` slot and the step marker.  A failing call is the node
raising; the run's call log gains the call either way. -/
def discovery_agent (llm : ModelFn) (state : AgentState) (log : List Call) :
    Except String AgentState × List Call :=
  match llm (discovery_call state.user_input) with
  | .ok content =>
      (.ok { state with discovery_output := content, current_step := "discovery" },
       log ++ [discovery_call state.user_input])
  | .error e => (.error e, log ++ [discovery_call state.user_input])

/-- app.py lines 177-188 (`structure_agent`). -/
def structure_agent (llm : ModelFn) (state : AgentState) (log : List Call) :
    Except String AgentState × List Call :=
  match llm (structure_call state.discovery_output) with
  | .ok content =>
      (.ok { state with structure_output := content, current_step := "structure" },
       log ++ [structure_call state.discovery_output])
  | .error e => (.error e, log ++ [structure_call state.discovery_output])

/-- app.py lines 190-201 (`design_agent`). -/
def design_agent (llm : ModelFn) (state : AgentState) (log : List Call) :
    Except String AgentState × List Call :=
  match llm (design_call state.structure_output) with
  | .ok content =>
      (.ok { state with design_output := content, current_step := "design" },
       log ++ [design_call state.structure_output])
  | .error e => (.error e, log ++ [design_call state.structure_output])

/-- app.py lines 203-214 (`implementation_agent`). -/
def implementation_agent (llm : ModelFn) (state : AgentState) (log : List Call) :
    Except String AgentState × List Call :=
  match llm (implementation_call state.design_output state.structure_output) with
  | .ok content =>
      (.ok { state with implementation_output := content, current_step := "implementation" },
       log ++ [implementation_call state.design_output state.structure_output])
  | .error e => (.error e, log ++ [implementation_call state.design_output state.structure_output])

/-- app.py lines 216-227 (`refinement_agent`). -/
def refinement_agent (llm : ModelFn) (state : AgentState) (log : List Call) :
    Except String AgentState × List Call :=
  match llm (refinement_call state.implementation_output) with
  | .ok content =>
      (.ok { state with refinement_output := content, current_step := "refinement" },
       log ++ [refinement_call state.implementation_output])
  | .error e => (.error e, log ++ [refinement_call state.implementation_output])

/-- The run's state before any node executes: the user input with every output
slot (and the error slot) empty. -/
def init_state (user_input : String) : AgentState :=
  ⟨user_input, "", "", "", "", "", "", ""⟩

/-- Everything observable about one pipeline run: its outcome, the model calls
it performed, and the sequence of states it reached (the state before any node
plus the state after each node that completed). -/
structure RunResult where
  result : Except String AgentState
  calls : List Call
  states : List AgentState

/-- app.py lines 232-257 (`build_graph`) plus invoking the compiled graph: the
fixed chain discovery → structure → design → implementation → refinement → END.
Each node runs only after its predecessor returned normally; a raising node
aborts the run and its exception propagates as the run's result. -/
def runPipeline (llm : ModelFn) (user_input : String) : RunResult :=
  let s0 := init_state user_input
  match discovery_agent llm s0 [] with
  | (.error e, log) => ⟨.error e, log, [s0]⟩
  | (.ok s1, log1) =>
    match structure_agent llm s1 log1 with
    | (.error e, log) => ⟨.error e, log, [s0, s1]⟩
    | (.ok s2, log2) =>
      match design_agent llm s2 log2 with
      | (.error e, log) => ⟨.error e, log, [s0, s1, s2]⟩
      | (.ok s3, log3) =>
        match implementation_agent llm s3 log3 with
        | (.error e, log) => ⟨.error e, log, [s0, s1, s2, s3]⟩
        | (.ok s4, log4) =>
          match refinement_agent llm s4 log4 with
          | (.error e, log) => ⟨.error e, log, [s0, s1, s2, s3, s4]⟩
          | (.ok s5, log5) => ⟨.ok s5, log5, [s0, s1, s2, s3, s4, s5]⟩

/-- app.py lines 264-267 (`ProcessAgentRequest`). -/
structure ProcessAgentRequest where
  agent_id : String
  user_input : String
  context : String

/-- The success payload of app.py lines 303-307 (`AgentResponse`). -/
structure AgentResponse where
  success : Bool
  response : String
  agent_name : String
  deriving DecidableEq

/-- app.py lines 282-311 (`process_agent`): the single-agent endpoint.  An
unknown identifier fails before any model call; otherwise the message list is
the system prompt, a context message when the supplied context is non-empty
(Python `if data.context:`), and a final message that is the raw user input for
`discovery` and the literal `'Continue.'` for every other agent.  The model is
invoked through `get_llm(temperature=temp)`, i.e. with the default 4000-token
budget. -/
def process_agent (llm : ModelFn) (data : ProcessAgentRequest) (log : List Call) :
    Except String AgentResponse × List Call :=
  match AGENTS_CONFIG data.agent_id with
  | none => (.error "Agente inválido", log)
  | some agent =>
    let temp := agent.temperature.getD default_temperature
    let messages :=
      [Message.system agent.system_prompt]
        ++ (if data.context = "" then []
            else [Message.human ("Contexto:\n" ++ data.context)])
        ++ [Message.human (if data.agent_id = "discovery" then data.user_input else "Continue.")]
    let call : Call := ⟨temp, default_max_tokens, messages⟩
    match llm call with
    | .ok content => (.ok ⟨true, content, agent.name⟩, log ++ [call])
    | .error e => (.error e, log ++ [call])

/-- A model whose output is a fixed function of the system instruction alone
(the deterministic stub of spec §8). -/
def stub_model (f : String → String) : ModelFn := fun c =>
  Except.ok (f (match c.messages.head? with
    | some (Message.system p) => p
    | _ => ""))

/-- A stub model that fails exactly on the design stage's system instruction
and answers every other call. -/
def C1_stub : ModelFn := fun c =>
  if c.messages.head? = some (Message.system design_config.system_prompt) then
    Except.error "falha no modelo"
  else Except.ok "saida"

/-- An environment holding a short but well-formed credential. -/
def C8_env : Env := fun x =>
  if x = "OPENAI_API_KEY" then some "sk-abc" else none

/-- A realistic-length credential: 29 characters, no dot. -/
def C8_key : String := "sk-proj-ABCDEFGHIJKLMNOPQRSTU"

/-- An environment holding a proxy variable and a valid credential. -/
def C3_env_ok : Env := fun x =>
  if x = "HTTP_PROXY" then some "http://proxy.local:3128"
  else if x = "OPENAI_API_KEY" then some "sk-proj-test123" else none

/-- An environment holding a proxy variable and no credential, so `get_llm`
raises. -/
def C3_env_fail : Env := fun x =>
  if x = "HTTP_PROXY" then some "http://proxy.local:3128" else none

/-! Theorems. -/

/-- C6: every pipeline stage invokes the model adapter with its fixed sampling
parameters — discovery with temperature 0.9 and a 1500-token budget, structure
and design with the adapter's default temperature and a 1500-token budget, and
implementation and refinement with the default temperature and a 4000-token
budget. -/
theorem C6_sampling_params :
    ∀ (llm : ModelFn) (s : AgentState) (log : List Call),
      default_temperature = 7/10
      ∧ (∃ ms, (discovery_agent llm s log).2 = log ++ [⟨9/10, 1500, ms⟩])
      ∧ (∃ ms, (structure_agent llm s log).2 = log ++ [⟨default_temperature, 1500, ms⟩])
      ∧ (∃ ms, (design_agent llm s log).2 = log ++ [⟨default_temperature, 1500, ms⟩])
      ∧ (∃ ms, (implementation_agent llm s log).2 = log ++ [⟨default_temperature, 4000, ms⟩])
      ∧ (∃ ms, (refinement_agent llm s log).2 = log ++ [⟨default_temperature, 4000, ms⟩]) := by
  intro llm s log
  refine ⟨rfl,
    ⟨[Message.system discovery_config.system_prompt, Message.human s.user_input], ?_⟩,
    ⟨[Message.system structure_config.system_prompt,
      Message.human ("Análise:\n" ++ s.discovery_output)], ?_⟩,
    ⟨[Message.system design_config.system_prompt,
      Message.human ("Estrutura:\n" ++ s.structure_output)], ?_⟩,
    ⟨[Message.system implementation_config.system_prompt,
      Message.human ("Design:\n" ++ s.design_output ++ "\n\nEstrutura:\n" ++ s.structure_output)], ?_⟩,
    ⟨[Message.system refinement_config.system_prompt,
      Message.human ("Código:\n" ++ s.implementation_output)], ?_⟩⟩
  · cases h : llm (discovery_call s.user_input) <;>
      (simp only [discovery_call] at h; simp [discovery_agent, discovery_call, h])
  · cases h : llm (structure_call s.discovery_output) <;>
      (simp only [structure_call] at h; simp [structure_agent, structure_call, h])
  · cases h : llm (design_call s.structure_output) <;>
      (simp only [design_call] at h; simp [design_agent, design_call, h])
  · cases h : llm (implementation_call s.design_output s.structure_output) <;>
      (simp only [implementation_call] at h; simp [implementation_agent, implementation_call, h])
  · cases h : llm (refinement_call s.implementation_output) <;>
      (simp only [refinement_call] at h; simp [refinement_agent, refinement_call, h])

/-- C7: invoking the single-agent endpoint with an agent identifier that is
not registered fails with the invalid-agent error and performs zero model
calls — the call log is returned unchanged. -/
theorem C7_unknown_agent :
    ∀ (llm : ModelFn) (data : ProcessAgentRequest) (log : List Call),
      AGENTS_CONFIG data.agent_id = none →
      process_agent llm data log = (.error "Agente inválido", log) := by
  intro llm data log h
  simp [process_agent, h]

/-- Witness for C7 at the concrete unregistered identifier "planner". -/
theorem C7_witness :
    AGENTS_CONFIG "planner" = none
    ∧ process_agent (fun _ => Except.ok "saida") ⟨"planner", "", ""⟩ []
        = (.error "Agente inválido", []) :=
  ⟨by rfl, C7_unknown_agent (fun _ => Except.ok "saida") ⟨"planner", "", ""⟩ [] (by rfl)⟩

/-- C10: on the single-agent path the model is always called with the invoked
agent's configured temperature (falling back to 0.7 when unset) and with the
adapter's default 4000-token budget, whichever agent is invoked. -/
theorem C10_single_agent_params :
    ∀ (llm : ModelFn) (data : ProcessAgentRequest) (log : List Call) (agent : AgentDef),
      AGENTS_CONFIG data.agent_id = some agent →
      default_temperature = 7/10 ∧ default_max_tokens = 4000
      ∧ ∃ ms, (process_agent llm data log).2
          = log ++ [⟨agent.temperature.getD default_temperature, default_max_tokens, ms⟩] := by
  intro llm data log agent h
  refine ⟨rfl, rfl,
    ⟨[Message.system agent.system_prompt]
        ++ (if data.context = "" then []
            else [Message.human ("Contexto:\n" ++ data.context)])
        ++ [Message.human (if data.agent_id = "discovery" then data.user_input else "Continue.")], ?_⟩⟩
  simp only [process_agent, h]
  split <;> simp

/-- Witness for C10 at the refinement agent: the call carries temperature 0.7
and the 4000-token default budget, not the pipeline's 1500-token budget. -/
theorem C10_witness :
    AGENTS_CONFIG "refinement" = some refinement_config
    ∧ (default_temperature = 7/10 ∧ default_max_tokens = 4000
       ∧ ∃ ms, (process_agent (fun _ => Except.ok "saida") ⟨"refinement", "", "ctx"⟩ []).2
           = [] ++ [⟨refinement_config.temperature.getD default_temperature, default_max_tokens, ms⟩]) :=
  ⟨by rfl,
   C10_single_agent_params (fun _ => Except.ok "saida") ⟨"refinement", "", "ctx"⟩ []
     refinement_config (by rfl)⟩

/-- C9: with the model replaced by a deterministic stub returning a fixed
output per system instruction, a pipeline run on a given input is a fixed
value — it terminates successfully with the five output slots holding the
stub's output for the five stage instructions, the step marker at the final
stage and the error slot empty, so any two runs on the same input coincide. -/
theorem C9_determinism :
    ∀ (f : String → String) (input : String),
      (runPipeline (stub_model f) input).result
        = Except.ok ⟨input,
            f discovery_config.system_prompt,
            f structure_config.system_prompt,
            f design_config.system_prompt,
            f implementation_config.system_prompt,
            f refinement_config.system_prompt,
            "refinement", ""⟩ := by
  intro f input
  rfl

/-- C4 counterexample: invoking the refinement agent with empty user text and
non-empty context sends the literal `"Continue."` as the final message — not
the marker `"proceed using the supplied context"` the claim states. -/
theorem C4_counterexample :
    (process_agent (fun _ => Except.ok "ok") ⟨"refinement", "", "<html>x</html>"⟩ []).2
      = [⟨7/10, 4000,
          [Message.system refinement_config.system_prompt,
           Message.human "Contexto:\n<html>x</html>",
           Message.human "Continue."]⟩]
    ∧ ("Continue." : String) ≠ "proceed using the supplied context" :=
  ⟨rfl, by decide⟩

/-- C4 (amended): for every registered agent the single-agent message list is
the agent's system instruction first, then a context message exactly when the
supplied context is non-empty, then a final message equal to the user input
verbatim when the agent is `discovery` and equal to the literal continuation
marker `"Continue."` for every other agent. -/
theorem C4_message_assembly :
    ∀ (llm : ModelFn) (data : ProcessAgentRequest) (log : List Call) (agent : AgentDef),
      AGENTS_CONFIG data.agent_id = some agent →
      ∃ c, (process_agent llm data log).2 = log ++ [c]
        ∧ (data.context = "" →
            c.messages = [Message.system agent.system_prompt,
              Message.human (if data.agent_id = "discovery" then data.user_input else "Continue.")])
        ∧ (data.context ≠ "" →
            c.messages = [Message.system agent.system_prompt,
              Message.human ("Contexto:\n" ++ data.context),
              Message.human (if data.agent_id = "discovery" then data.user_input else "Continue.")]) := by
  intro llm data log agent h
  refine ⟨⟨agent.temperature.getD default_temperature, default_max_tokens,
    [Message.system agent.system_prompt]
      ++ (if data.context = "" then [] else [Message.human ("Contexto:\n" ++ data.context)])
      ++ [Message.human (if data.agent_id = "discovery" then data.user_input else "Continue.")]⟩,
    ?_, ?_, ?_⟩
  · simp only [process_agent, h]
    split <;> simp
  · intro hc; simp [hc]
  · intro hc; simp [hc]

/-- Witness for C4 at the two instances named by the spec: `discovery` with
user text sends the raw text, `refinement` with empty text and non-empty
context sends the marker. -/
theorem C4_witness :
    (AGENTS_CONFIG "discovery" = some discovery_config
     ∧ ∃ c, (process_agent (fun _ => Except.ok "ok") ⟨"discovery", "build a todo app", ""⟩ []).2
          = [] ++ [c]
        ∧ (("" : String) = "" →
            c.messages = [Message.system discovery_config.system_prompt,
              Message.human (if ("discovery" : String) = "discovery" then "build a todo app" else "Continue.")])
        ∧ (("" : String) ≠ "" →
            c.messages = [Message.system discovery_config.system_prompt,
              Message.human ("Contexto:\n" ++ ""),
              Message.human (if ("discovery" : String) = "discovery" then "build a todo app" else "Continue.")]))
    ∧ (AGENTS_CONFIG "refinement" = some refinement_config
       ∧ ∃ c, (process_agent (fun _ => Except.ok "ok") ⟨"refinement", "", "<html>a</html>"⟩ []).2
            = [] ++ [c]
          ∧ (("<html>a</html>" : String) = "" →
              c.messages = [Message.system refinement_config.system_prompt,
                Message.human (if ("refinement" : String) = "discovery" then "" else "Continue.")])
          ∧ (("<html>a</html>" : String) ≠ "" →
              c.messages = [Message.system refinement_config.system_prompt,
                Message.human ("Contexto:\n" ++ "<html>a</html>"),
                Message.human (if ("refinement" : String) = "discovery" then "" else "Continue.")])) :=
  ⟨⟨by rfl, C4_message_assembly (fun _ => Except.ok "ok") ⟨"discovery", "build a todo app", ""⟩ []
      discovery_config (by rfl)⟩,
   ⟨by rfl, C4_message_assembly (fun _ => Except.ok "ok") ⟨"refinement", "", "<html>a</html>"⟩ []
      refinement_config (by rfl)⟩⟩

/-- C5: on any run whose first four model calls succeed, the implementation
stage's context message embeds both the design output and the structure output
verbatim as contiguous segments; the discovery context is the raw user input,
and every other stage's context embeds the immediately preceding stage's
output. -/
theorem C5_context_assembly :
    ∀ (llm : ModelFn) (input o1 o2 o3 o4 : String),
      llm (discovery_call input) = .ok o1 →
      llm (structure_call o1) = .ok o2 →
      llm (design_call o2) = .ok o3 →
      llm (implementation_call o3 o2) = .ok o4 →
      (runPipeline llm input).calls
        = [discovery_call input, structure_call o1, design_call o2,
           implementation_call o3 o2, refinement_call o4]
      ∧ (discovery_call input).messages
          = [Message.system discovery_config.system_prompt, Message.human input]
      ∧ (structure_call o1).messages
          = [Message.system structure_config.system_prompt,
             Message.human ("Análise:\n" ++ o1)]
      ∧ (design_call o2).messages
          = [Message.system design_config.system_prompt,
             Message.human ("Estrutura:\n" ++ o2)]
      ∧ (implementation_call o3 o2).messages
          = [Message.system implementation_config.system_prompt,
             Message.human ("Design:\n" ++ o3 ++ "\n\nEstrutura:\n" ++ o2)]
      ∧ (refinement_call o4).messages
          = [Message.system refinement_config.system_prompt,
             Message.human ("Código:\n" ++ o4)]
      ∧ isSegmentOf o3.data ("Design:\n" ++ o3 ++ "\n\nEstrutura:\n" ++ o2).data
      ∧ isSegmentOf o2.data ("Design:\n" ++ o3 ++ "\n\nEstrutura:\n" ++ o2).data
      ∧ isSegmentOf o1.data ("Análise:\n" ++ o1).data
      ∧ isSegmentOf o2.data ("Estrutura:\n" ++ o2).data
      ∧ isSegmentOf o4.data ("Código:\n" ++ o4).data := by
  intro llm input o1 o2 o3 o4 h1 h2 h3 h4
  refine ⟨?_, rfl, rfl, rfl, rfl, rfl,
    ⟨"Design:\n".data, ("\n\nEstrutura:\n" ++ o2).data, by simp⟩,
    ⟨("Design:\n" ++ o3 ++ "\n\nEstrutura:\n").data, [], by simp⟩,
    ⟨"Análise:\n".data, [], by simp⟩,
    ⟨"Estrutura:\n".data, [], by simp⟩,
    ⟨"Código:\n".data, [], by simp⟩⟩
  cases h5 : llm (refinement_call o4) <;>
    simp [runPipeline, discovery_agent, structure_agent, design_agent,
          implementation_agent, refinement_agent, init_state, h1, h2, h3, h4, h5]

/-- Witness for C5 with the constant stub model. -/
theorem C5_witness :
    ((fun _ => Except.ok "saida" : ModelFn) (discovery_call "ideia") = Except.ok "saida")
    ∧ (runPipeline (fun _ => Except.ok "saida") "ideia").calls
        = [discovery_call "ideia", structure_call "saida", design_call "saida",
           implementation_call "saida" "saida", refinement_call "saida"]
    ∧ isSegmentOf "saida".data ("Design:\n" ++ "saida" ++ "\n\nEstrutura:\n" ++ "saida").data :=
  ⟨rfl,
   (C5_context_assembly (fun _ => Except.ok "saida") "ideia" "saida" "saida" "saida" "saida"
      rfl rfl rfl rfl).1,
   (C5_context_assembly (fun _ => Except.ok "saida") "ideia" "saida" "saida" "saida" "saida"
      rfl rfl rfl rfl).2.2.2.2.2.2.1⟩

/-- C1 counterexample: with a stub model that fails exactly on the design
stage, the run does not return a state with the error slot set — the failure
propagates as the run's exceptional outcome, exactly three model calls are
made, and no reached state ever has a non-empty error slot (no code in
app.py writes the `error` field). -/
theorem C1_counterexample :
    (runPipeline C1_stub "ideia").result = Except.error "falha no modelo"
    ∧ (runPipeline C1_stub "ideia").calls.length = 3
    ∧ ∀ s ∈ (runPipeline C1_stub "ideia").states, s.error = "" := by
  refine ⟨rfl, rfl, ?_⟩
  decide

/-- C1 (amended): whenever the model fails at stage 3 (design), the two
earlier stages' outputs are populated in every state reached from then on, the
later slots stay empty, stages 4 and 5 are never invoked (the run performs
exactly the three earlier calls and none carries the implementation or
refinement system instruction), the error slot is never written, and the run
ends by propagating the failure description as an exception — no final state
is returned. -/
theorem C1_design_failure_halts :
    ∀ (llm : ModelFn) (input o1 o2 e : String),
      llm (discovery_call input) = .ok o1 →
      llm (structure_call o1) = .ok o2 →
      llm (design_call o2) = .error e →
      (runPipeline llm input).result = .error e
      ∧ (runPipeline llm input).calls
          = [discovery_call input, structure_call o1, design_call o2]
      ∧ (∀ c ∈ (runPipeline llm input).calls,
           c.messages.head? ≠ some (Message.system implementation_config.system_prompt)
           ∧ c.messages.head? ≠ some (Message.system refinement_config.system_prompt))
      ∧ (runPipeline llm input).states
          = [⟨input, "", "", "", "", "", "", ""⟩,
             ⟨input, o1, "", "", "", "", "discovery", ""⟩,
             ⟨input, o1, o2, "", "", "", "structure", ""⟩]
      ∧ (∀ s ∈ (runPipeline llm input).states, s.error = "") := by
  intro llm input o1 o2 e h1 h2 h3
  have hrun : runPipeline llm input
      = ⟨.error e,
         [discovery_call input, structure_call o1, design_call o2],
         [⟨input, "", "", "", "", "", "", ""⟩,
          ⟨input, o1, "", "", "", "", "discovery", ""⟩,
          ⟨input, o1, o2, "", "", "", "structure", ""⟩]⟩ := by
    simp [runPipeline, discovery_agent, structure_agent, design_agent,
          init_state, h1, h2, h3]
  rw [hrun]
  refine ⟨rfl, rfl, ?_, rfl, ?_⟩
  · intro c hc
    simp only [List.mem_cons, List.not_mem_nil, or_false] at hc
    rcases hc with rfl | rfl | rfl <;>
      exact ⟨by simp [discovery_call, structure_call, design_call]; decide,
             by simp [discovery_call, structure_call, design_call]; decide⟩
  · intro s hs
    simp only [List.mem_cons, List.not_mem_nil, or_false] at hs
    rcases hs with rfl | rfl | rfl <;> rfl

/-- Witness for C1 with the design-failing stub. -/
theorem C1_witness :
    C1_stub (discovery_call "ideia") = Except.ok "saida"
    ∧ C1_stub (structure_call "saida") = Except.ok "saida"
    ∧ C1_stub (design_call "saida") = Except.error "falha no modelo"
    ∧ (runPipeline C1_stub "ideia").result = Except.error "falha no modelo"
    ∧ (runPipeline C1_stub "ideia").calls
        = [discovery_call "ideia", structure_call "saida", design_call "saida"] :=
  ⟨by decide, by decide, by decide,
   (C1_design_failure_halts C1_stub "ideia" "saida" "saida" "falha no modelo"
      (by decide) (by decide) (by decide)).1,
   (C1_design_failure_halts C1_stub "ideia" "saida" "saida" "falha no modelo"
      (by decide) (by decide) (by decide)).2.1⟩

/-- Setting two distinct variables commutes. -/
theorem setVar_setVar_comm (env : Env) (v w val u : String) (h : w ≠ v) :
    setVar (setVar env v val) w u = setVar (setVar env w u) v val := by
  funext x
  by_cases h1 : x = w <;> by_cases h2 : x = v
  · exact absurd (h1.symm.trans h2) h
  · simp [setVar, h1, h2, h]
  · simp [setVar, h1, h2, h.symm]
  · simp [setVar, h1, h2]

/-- Restoring a list of variables that avoids `v` commutes with setting `v`. -/
theorem restoreVars_setVar :
    ∀ (old : List (String × String)) (env : Env) (v val : String),
      (∀ p ∈ old, p.1 ≠ v) →
      restoreVars (setVar env v val) old = setVar (restoreVars env old) v val := by
  intro old
  induction old with
  | nil => intro env v val _; rfl
  | cons p rest ih =>
    intro env v val h
    have hp : p.1 ≠ v := h p (List.mem_cons_self p rest)
    show restoreVars (setVar (setVar env v val) p.1 p.2) rest
        = setVar (restoreVars (setVar env p.1 p.2) rest) v val
    rw [setVar_setVar_comm env v p.1 val p.2 hp]
    exact ih (setVar env p.1 p.2) v val (fun q hq => h q (List.mem_cons_of_mem p hq))

/-- Setting a variable back to its looked-up value undoes its erasure. -/
theorem setVar_eraseVar (env : Env) (v val : String) (h : env v = some val) :
    setVar (eraseVar env v) v val = env := by
  funext x
  by_cases hx : x = v
  · subst hx; simp [setVar, h]
  · simp [setVar, eraseVar, hx]

/-- Every variable recorded by `popVars` comes from the popped list. -/
theorem popVars_keys :
    ∀ (vs : List String) (env : Env) (p : String × String),
      p ∈ (popVars env vs).2 → p.1 ∈ vs := by
  intro vs
  induction vs with
  | nil => intro env p hp; simp [popVars] at hp
  | cons v rest ih =>
    intro env p hp
    cases h : env v with
    | none =>
      simp only [popVars, h] at hp
      exact List.mem_cons_of_mem v (ih env p hp)
    | some val =>
      simp only [popVars, h, List.mem_cons] at hp
      rcases hp with rfl | hp
      · exact List.mem_cons_self v rest
      · exact List.mem_cons_of_mem v (ih (eraseVar env v) p hp)

/-- Restoring what `popVars` popped reconstructs the original environment. -/
theorem restore_popVars :
    ∀ (vs : List String), vs.Nodup → ∀ env : Env,
      restoreVars (popVars env vs).1 (popVars env vs).2 = env := by
  intro vs
  induction vs with
  | nil => intro _ env; rfl
  | cons v rest ih =>
    intro hnd env
    rw [List.nodup_cons] at hnd
    cases h : env v with
    | none =>
      simp only [popVars, h]
      exact ih hnd.2 env
    | some val =>
      have hkeys : ∀ p ∈ (popVars (eraseVar env v) rest).2, p.1 ≠ v := by
        intro p hp hpv
        exact hnd.1 (hpv ▸ popVars_keys rest (eraseVar env v) p hp)
      calc restoreVars (popVars env (v :: rest)).1 (popVars env (v :: rest)).2
          = restoreVars (setVar (popVars (eraseVar env v) rest).1 v val)
              (popVars (eraseVar env v) rest).2 := by
            simp only [popVars, h]
            rfl
        _ = setVar (restoreVars (popVars (eraseVar env v) rest).1
              (popVars (eraseVar env v) rest).2) v val :=
            restoreVars_setVar _ _ v val hkeys
        _ = setVar (eraseVar env v) v val := by rw [ih hnd.2 (eraseVar env v)]
        _ = env := setVar_eraseVar env v val h

/-- The environment after `get_llm` equals the environment before it, on both
the success and the raising path. -/
theorem get_llm_env_id (env : Env) (t : ℚ) (k : ℕ) : (get_llm env t k).2 = env := by
  have hr := restore_popVars proxy_vars (by decide) env
  unfold get_llm
  cases h : get_api_key (popVars env proxy_vars).1 <;> simp [h, hr]

/-- C3: every proxy variable present before a `get_llm` invocation is present
with its original value afterwards, whether the invocation succeeds or raises —
the clear/restore of the environment is a round-trip. -/
theorem C3_proxy_roundtrip :
    ∀ (env : Env) (temperature : ℚ) (max_tokens : ℕ) (v val : String),
      v ∈ proxy_vars → env v = some val →
      ((get_llm env temperature max_tokens).2) v = some val := by
  intro env t k v val _ hv
  rw [get_llm_env_id]
  exact hv

/-- Witness for C3, on a succeeding invocation and on a raising one. -/
theorem C3_witness :
    ("HTTP_PROXY" ∈ proxy_vars)
    ∧ C3_env_ok "HTTP_PROXY" = some "http://proxy.local:3128"
    ∧ (get_llm C3_env_ok default_temperature default_max_tokens).1
        = Except.ok ⟨"gpt-4o-mini", "sk-proj-test123", default_temperature, default_max_tokens⟩
    ∧ ((get_llm C3_env_ok default_temperature default_max_tokens).2) "HTTP_PROXY"
        = some "http://proxy.local:3128"
    ∧ C3_env_fail "HTTP_PROXY" = some "http://proxy.local:3128"
    ∧ (get_llm C3_env_fail default_temperature default_max_tokens).1
        = Except.error missing_key_message
    ∧ ((get_llm C3_env_fail default_temperature default_max_tokens).2) "HTTP_PROXY"
        = some "http://proxy.local:3128" :=
  ⟨by decide, rfl, rfl,
   C3_proxy_roundtrip C3_env_ok default_temperature default_max_tokens
     "HTTP_PROXY" "http://proxy.local:3128" (by decide) rfl,
   rfl, rfl,
   C3_proxy_roundtrip C3_env_fail default_temperature default_max_tokens
     "HTTP_PROXY" "http://proxy.local:3128" (by decide) rfl⟩

/-- `popVars` leaves every variable outside the popped list untouched. -/
theorem popVars_not_mem :
    ∀ (vs : List String) (env : Env) (x : String),
      x ∉ vs → (popVars env vs).1 x = env x := by
  intro vs
  induction vs with
  | nil => intro env x _; rfl
  | cons v rest ih =>
    intro env x hx
    have hxv : x ≠ v := fun h => hx (h ▸ List.mem_cons_self v rest)
    have hxr : x ∉ rest := fun h => hx (List.mem_cons_of_mem v h)
    cases h : env v with
    | none =>
      simp only [popVars, h]
      exact ih env x hxr
    | some val =>
      simp only [popVars, h]
      rw [ih (eraseVar env v) x hxr]
      simp [eraseVar, hxv]

/-- Clearing the proxy variables does not change the credential lookup. -/
theorem get_api_key_cleared (env : Env) :
    get_api_key (popVars env proxy_vars).1 = get_api_key env := by
  unfold get_api_key
  rw [popVars_not_mem proxy_vars env "OPENAI_API_KEY" (by decide)]

/-- C8 counterexample: the short credential "sk-abc" passes the format check,
yet the startup diagnostic contains it in full (its first 15 characters are
the whole credential) — the claim that diagnostics never surface the full
credential fails. -/
theorem C8_counterexample :
    get_api_key C8_env = Except.ok "sk-abc"
    ∧ isSegmentOf "sk-abc".data (startup_diagnostic "sk-abc") :=
  ⟨rfl, ⟨"✓ API Key: ".data, "...".data ++ "k-abc".data, by decide⟩⟩

/-- C8 (amended): the credential check fails exactly when the credential is
absent from the environment or does not begin with a recognized prefix
("sk-" or "sk-proj-", with Python's falsy empty string counting as absent);
when the check fails, `get_llm` fails with the same configuration error and no
client is constructed; and the startup diagnostic surfaces only the first 15
and last 5 characters, so a credential longer than the 34-character diagnostic
line (and containing no '.') never appears in it in full — shorter credentials
can be surfaced whole, as the counterexample shows. -/
theorem C8_credential_check :
    (∀ env : Env,
       (∃ e, get_api_key env = Except.error e)
         ↔ (env "OPENAI_API_KEY" = none
            ∨ ∃ k, env "OPENAI_API_KEY" = some k
                ∧ ¬(starts_with k "sk-" = true ∨ starts_with k "sk-proj-" = true)))
    ∧ (∀ (env : Env) (t : ℚ) (m : ℕ) (e : String),
         get_api_key env = Except.error e → (get_llm env t m).1 = Except.error e)
    ∧ (∀ key : String, 26 < key.data.length → '.' ∉ key.data →
         ¬ isSegmentOf key.data (startup_diagnostic key)) := by
  refine ⟨?_, ?_, ?_⟩
  · intro env
    cases h : env "OPENAI_API_KEY" with
    | none =>
      simp only [get_api_key, h]
      exact iff_of_true ⟨missing_key_message, rfl⟩ (Or.inl trivial)
    | some k =>
      by_cases hk : k = ""
      · subst hk
        simp only [get_api_key, h, if_pos rfl]
        exact iff_of_true ⟨missing_key_message, rfl⟩ (Or.inr ⟨"", rfl, by decide⟩)
      · by_cases hp : (starts_with k "sk-" || starts_with k "sk-proj-") = true
        · simp only [get_api_key, h, if_neg hk, if_pos hp]
          refine iff_of_false ?_ ?_
          · rintro ⟨e, he⟩
            exact Except.noConfusion he
          · rintro (hcon | ⟨k', hk', hnp⟩)
            · exact Option.noConfusion hcon
            · rcases Option.some.inj hk' with rfl
              exact hnp (Bool.or_eq_true_iff.mp hp)
        · simp only [get_api_key, h, if_neg hk, if_neg hp]
          refine iff_of_true ⟨"OPENAI_API_KEY com formato inválido", rfl⟩
            (Or.inr ⟨k, rfl, fun hor => hp (Bool.or_eq_true_iff.mpr hor)⟩)
  · intro env t m e he
    have hcl : get_api_key (popVars env proxy_vars).1 = Except.error e := by
      rw [get_api_key_cleared]
      exact he
    simp [get_llm, hcl]
  · intro key h26 hdot hseg
    obtain ⟨s, t, hst⟩ := hseg
    have hlen : ("✓ API Key: ".data).length = 11 := by decide
    have hdlen : ("...".data).length = 3 := by decide
    have htk : (key.data.take 15).length = 15 := by
      rw [List.length_take]
      omega
    have hdr : (key.data.drop (key.data.length - 5)).length = 5 := by
      rw [List.length_drop]
      omega
    have hs' : s.length + key.data.length + t.length = (startup_diagnostic key).length := by
      have hcl := congrArg List.length hst
      simp only [List.length_append] at hcl
      omega
    have hR : (startup_diagnostic key).length = 34 := by
      simp only [startup_diagnostic, List.length_append, hlen, hdlen, htk, hdr]
    have hsle : s.length ≤ 7 := by omega
    have h26R : (startup_diagnostic key)[26]? = some '.' := by
      unfold startup_diagnostic
      rw [List.getElem?_append_left
        (show (26:ℕ) < (("✓ API Key: ".data ++ key.data.take 15) ++ "...".data).length by
          simp only [List.length_append, hlen, htk, hdlen]
          omega)]
      rw [List.getElem?_append_right
        (show ("✓ API Key: ".data ++ key.data.take 15).length ≤ 26 by
          simp only [List.length_append, hlen, htk]
          omega)]
      have h26eq : 26 - ("✓ API Key: ".data ++ key.data.take 15).length = 0 := by
        simp only [List.length_append, hlen, htk]
      rw [h26eq]
      decide
    have hL : (startup_diagnostic key)[26]? = key.data[26 - s.length]? := by
      rw [← hst]
      rw [List.getElem?_append_left
        (show (26:ℕ) < (s ++ key.data).length by
          rw [List.length_append]
          omega)]
      rw [List.getElem?_append_right (show s.length ≤ 26 by omega)]
    have hmem : key.data[26 - s.length]? = some '.' := by
      rw [← hL]
      exact h26R
    exact hdot (List.getElem?_mem hmem)

/-- Witness for C8: applying the amended redaction bound to a realistic
29-character dot-free credential, and the failing-check behaviour of `get_llm`
on an environment with no credential. -/
theorem C8_witness :
    (26 < C8_key.data.length) ∧ ('.' ∉ C8_key.data)
    ∧ ¬ isSegmentOf C8_key.data (startup_diagnostic C8_key)
    ∧ get_api_key (fun _ => none) = Except.error missing_key_message
    ∧ ((get_llm (fun _ => none) default_temperature default_max_tokens).1
        = Except.error missing_key_message) :=
  ⟨by decide, by decide,
   C8_credential_check.2.2 C8_key (by decide) (by decide),
   rfl,
   C8_credential_check.2.1 (fun _ => none) default_temperature default_max_tokens
     missing_key_message rfl⟩

/-- The slot-fullness invariant over every state a run reaches, assuming the
model never returns empty text: the state at index `i` has exactly the first
`i` slots populated. -/
theorem slot_invariant_states :
    ∀ (llm : ModelFn) (input : String),
      (∀ c r, llm c = Except.ok r → r ≠ "") →
      ∀ i s, (runPipeline llm input).states[i]? = some s →
        ((s.discovery_output ≠ "" ↔ 1 ≤ i)
         ∧ (s.structure_output ≠ "" ↔ 2 ≤ i)
         ∧ (s.design_output ≠ "" ↔ 3 ≤ i)
         ∧ (s.implementation_output ≠ "" ↔ 4 ≤ i)
         ∧ (s.refinement_output ≠ "" ↔ 5 ≤ i)) := by
  intro llm input hne i s hs
  have n0 : ¬(("" : String) ≠ "") := by simp
  cases h1 : llm (discovery_call input) with
  | error e1 =>
    simp only [runPipeline, discovery_agent, init_state, h1] at hs
    rcases i with _ | i
    · simp only [List.getElem?_cons_zero, Option.some.injEq] at hs
      subst hs
      exact ⟨iff_of_false n0 (by omega), iff_of_false n0 (by omega),
        iff_of_false n0 (by omega), iff_of_false n0 (by omega), iff_of_false n0 (by omega)⟩
    · simp at hs
  | ok o1 =>
    have m1 : o1 ≠ "" := hne _ _ h1
    cases h2 : llm (structure_call o1) with
    | error e2 =>
      simp only [runPipeline, discovery_agent, structure_agent, init_state, h1, h2] at hs
      rcases i with _ | _ | i
      · simp only [List.getElem?_cons_zero, Option.some.injEq] at hs
        subst hs
        exact ⟨iff_of_false n0 (by omega), iff_of_false n0 (by omega),
          iff_of_false n0 (by omega), iff_of_false n0 (by omega), iff_of_false n0 (by omega)⟩
      · simp only [List.getElem?_cons_succ, List.getElem?_cons_zero, Option.some.injEq] at hs
        subst hs
        exact ⟨iff_of_true m1 (by omega), iff_of_false n0 (by omega),
          iff_of_false n0 (by omega), iff_of_false n0 (by omega), iff_of_false n0 (by omega)⟩
      · simp at hs
    | ok o2 =>
      have m2 : o2 ≠ "" := hne _ _ h2
      cases h3 : llm (design_call o2) with
      | error e3 =>
        simp only [runPipeline, discovery_agent, structure_agent, design_agent,
          init_state, h1, h2, h3] at hs
        rcases i with _ | _ | _ | i
        · simp only [List.getElem?_cons_zero, Option.some.injEq] at hs
          subst hs
          exact ⟨iff_of_false n0 (by omega), iff_of_false n0 (by omega),
            iff_of_false n0 (by omega), iff_of_false n0 (by omega), iff_of_false n0 (by omega)⟩
        · simp only [List.getElem?_cons_succ, List.getElem?_cons_zero, Option.some.injEq] at hs
          subst hs
          exact ⟨iff_of_true m1 (by omega), iff_of_false n0 (by omega),
            iff_of_false n0 (by omega), iff_of_false n0 (by omega), iff_of_false n0 (by omega)⟩
        · simp only [List.getElem?_cons_succ, List.getElem?_cons_zero, Option.some.injEq] at hs
          subst hs
          exact ⟨iff_of_true m1 (by omega), iff_of_true m2 (by omega),
            iff_of_false n0 (by omega), iff_of_false n0 (by omega), iff_of_false n0 (by omega)⟩
        · simp at hs
      | ok o3 =>
        have m3 : o3 ≠ "" := hne _ _ h3
        cases h4 : llm (implementation_call o3 o2) with
        | error e4 =>
          simp only [runPipeline, discovery_agent, structure_agent, design_agent,
            implementation_agent, init_state, h1, h2, h3, h4] at hs
          rcases i with _ | _ | _ | _ | i
          · simp only [List.getElem?_cons_zero, Option.some.injEq] at hs
            subst hs
            exact ⟨iff_of_false n0 (by omega), iff_of_false n0 (by omega),
              iff_of_false n0 (by omega), iff_of_false n0 (by omega), iff_of_false n0 (by omega)⟩
          · simp only [List.getElem?_cons_succ, List.getElem?_cons_zero, Option.some.injEq] at hs
            subst hs
            exact ⟨iff_of_true m1 (by omega), iff_of_false n0 (by omega),
              iff_of_false n0 (by omega), iff_of_false n0 (by omega), iff_of_false n0 (by omega)⟩
          · simp only [List.getElem?_cons_succ, List.getElem?_cons_zero, Option.some.injEq] at hs
            subst hs
            exact ⟨iff_of_true m1 (by omega), iff_of_true m2 (by omega),
              iff_of_false n0 (by omega), iff_of_false n0 (by omega), iff_of_false n0 (by omega)⟩
          · simp only [List.getElem?_cons_succ, List.getElem?_cons_zero, Option.some.injEq] at hs
            subst hs
            exact ⟨iff_of_true m1 (by omega), iff_of_true m2 (by omega),
              iff_of_true m3 (by omega), iff_of_false n0 (by omega), iff_of_false n0 (by omega)⟩
          · simp at hs
        | ok o4 =>
          have m4 : o4 ≠ "" := hne _ _ h4
          cases h5 : llm (refinement_call o4) with
          | error e5 =>
            simp only [runPipeline, discovery_agent, structure_agent, design_agent,
              implementation_agent, refinement_agent, init_state, h1, h2, h3, h4, h5] at hs
            rcases i with _ | _ | _ | _ | _ | i
            · simp only [List.getElem?_cons_zero, Option.some.injEq] at hs
              subst hs
              exact ⟨iff_of_false n0 (by omega), iff_of_false n0 (by omega),
                iff_of_false n0 (by omega), iff_of_false n0 (by omega), iff_of_false n0 (by omega)⟩
            · simp only [List.getElem?_cons_succ, List.getElem?_cons_zero, Option.some.injEq] at hs
              subst hs
              exact ⟨iff_of_true m1 (by omega), iff_of_false n0 (by omega),
                iff_of_false n0 (by omega), iff_of_false n0 (by omega), iff_of_false n0 (by omega)⟩
            · simp only [List.getElem?_cons_succ, List.getElem?_cons_zero, Option.some.injEq] at hs
              subst hs
              exact ⟨iff_of_true m1 (by omega), iff_of_true m2 (by omega),
                iff_of_false n0 (by omega), iff_of_false n0 (by omega), iff_of_false n0 (by omega)⟩
            · simp only [List.getElem?_cons_succ, List.getElem?_cons_zero, Option.some.injEq] at hs
              subst hs
              exact ⟨iff_of_true m1 (by omega), iff_of_true m2 (by omega),
                iff_of_true m3 (by omega), iff_of_false n0 (by omega), iff_of_false n0 (by omega)⟩
            · simp only [List.getElem?_cons_succ, List.getElem?_cons_zero, Option.some.injEq] at hs
              subst hs
              exact ⟨iff_of_true m1 (by omega), iff_of_true m2 (by omega),
                iff_of_true m3 (by omega), iff_of_true m4 (by omega), iff_of_false n0 (by omega)⟩
            · simp at hs
          | ok o5 =>
            have m5 : o5 ≠ "" := hne _ _ h5
            simp only [runPipeline, discovery_agent, structure_agent, design_agent,
              implementation_agent, refinement_agent, init_state, h1, h2, h3, h4, h5] at hs
            rcases i with _ | _ | _ | _ | _ | _ | i
            · simp only [List.getElem?_cons_zero, Option.some.injEq] at hs
              subst hs
              exact ⟨iff_of_false n0 (by omega), iff_of_false n0 (by omega),
                iff_of_false n0 (by omega), iff_of_false n0 (by omega), iff_of_false n0 (by omega)⟩
            · simp only [List.getElem?_cons_succ, List.getElem?_cons_zero, Option.some.injEq] at hs
              subst hs
              exact ⟨iff_of_true m1 (by omega), iff_of_false n0 (by omega),
                iff_of_false n0 (by omega), iff_of_false n0 (by omega), iff_of_false n0 (by omega)⟩
            · simp only [List.getElem?_cons_succ, List.getElem?_cons_zero, Option.some.injEq] at hs
              subst hs
              exact ⟨iff_of_true m1 (by omega), iff_of_true m2 (by omega),
                iff_of_false n0 (by omega), iff_of_false n0 (by omega), iff_of_false n0 (by omega)⟩
            · simp only [List.getElem?_cons_succ, List.getElem?_cons_zero, Option.some.injEq] at hs
              subst hs
              exact ⟨iff_of_true m1 (by omega), iff_of_true m2 (by omega),
                iff_of_true m3 (by omega), iff_of_false n0 (by omega), iff_of_false n0 (by omega)⟩
            · simp only [List.getElem?_cons_succ, List.getElem?_cons_zero, Option.some.injEq] at hs
              subst hs
              exact ⟨iff_of_true m1 (by omega), iff_of_true m2 (by omega),
                iff_of_true m3 (by omega), iff_of_true m4 (by omega), iff_of_false n0 (by omega)⟩
            · simp only [List.getElem?_cons_succ, List.getElem?_cons_zero, Option.some.injEq] at hs
              subst hs
              exact ⟨iff_of_true m1 (by omega), iff_of_true m2 (by omega),
                iff_of_true m3 (by omega), iff_of_true m4 (by omega), iff_of_true m5 (by omega)⟩
            · simp at hs

/-- The discovery node's model call depends only on `user_input`, and on
success it changes only its own slot and the step marker. -/
theorem stage_rw_discovery :
    ∀ (llm : ModelFn) (s t : AgentState) (log log' : List Call),
      (s.user_input = t.user_input →
        (discovery_agent llm s log).2.drop log.length
          = (discovery_agent llm t log').2.drop log'.length)
      ∧ (∀ s', (discovery_agent llm s log).1 = Except.ok s' →
          ∃ c, s' = { s with discovery_output := c, current_step := "discovery" }) := by
  intro llm s t log log'
  constructor
  · intro hrd
    have e1 : (discovery_agent llm s log).2 = log ++ [discovery_call s.user_input] := by
      cases h : llm (discovery_call s.user_input) <;> simp [discovery_agent, h]
    have e2 : (discovery_agent llm t log').2 = log' ++ [discovery_call t.user_input] := by
      cases h : llm (discovery_call t.user_input) <;> simp [discovery_agent, h]
    rw [e1, e2, List.drop_left, List.drop_left, hrd]
  · intro s' h
    cases h' : llm (discovery_call s.user_input) with
    | ok content =>
      simp only [discovery_agent, h', Except.ok.injEq] at h
      exact ⟨content, h.symm⟩
    | error e =>
      simp [discovery_agent, h'] at h

/-- The structure node's model call depends only on `discovery_output`, and on
success it changes only its own slot and the step marker. -/
theorem stage_rw_structure :
    ∀ (llm : ModelFn) (s t : AgentState) (log log' : List Call),
      (s.discovery_output = t.discovery_output →
        (structure_agent llm s log).2.drop log.length
          = (structure_agent llm t log').2.drop log'.length)
      ∧ (∀ s', (structure_agent llm s log).1 = Except.ok s' →
          ∃ c, s' = { s with structure_output := c, current_step := "structure" }) := by
  intro llm s t log log'
  constructor
  · intro hrd
    have e1 : (structure_agent llm s log).2 = log ++ [structure_call s.discovery_output] := by
      cases h : llm (structure_call s.discovery_output) <;> simp [structure_agent, h]
    have e2 : (structure_agent llm t log').2 = log' ++ [structure_call t.discovery_output] := by
      cases h : llm (structure_call t.discovery_output) <;> simp [structure_agent, h]
    rw [e1, e2, List.drop_left, List.drop_left, hrd]
  · intro s' h
    cases h' : llm (structure_call s.discovery_output) with
    | ok content =>
      simp only [structure_agent, h', Except.ok.injEq] at h
      exact ⟨content, h.symm⟩
    | error e =>
      simp [structure_agent, h'] at h

/-- The design node's model call depends only on `structure_output`, and on
success it changes only its own slot and the step marker. -/
theorem stage_rw_design :
    ∀ (llm : ModelFn) (s t : AgentState) (log log' : List Call),
      (s.structure_output = t.structure_output →
        (design_agent llm s log).2.drop log.length
          = (design_agent llm t log').2.drop log'.length)
      ∧ (∀ s', (design_agent llm s log).1 = Except.ok s' →
          ∃ c, s' = { s with design_output := c, current_step := "design" }) := by
  intro llm s t log log'
  constructor
  · intro hrd
    have e1 : (design_agent llm s log).2 = log ++ [design_call s.structure_output] := by
      cases h : llm (design_call s.structure_output) <;> simp [design_agent, h]
    have e2 : (design_agent llm t log').2 = log' ++ [design_call t.structure_output] := by
      cases h : llm (design_call t.structure_output) <;> simp [design_agent, h]
    rw [e1, e2, List.drop_left, List.drop_left, hrd]
  · intro s' h
    cases h' : llm (design_call s.structure_output) with
    | ok content =>
      simp only [design_agent, h', Except.ok.injEq] at h
      exact ⟨content, h.symm⟩
    | error e =>
      simp [design_agent, h'] at h

/-- The implementation node's model call depends only on `design_output` and
`structure_output`, and on success it changes only its own slot and the step
marker. -/
theorem stage_rw_implementation :
    ∀ (llm : ModelFn) (s t : AgentState) (log log' : List Call),
      (s.design_output = t.design_output → s.structure_output = t.structure_output →
        (implementation_agent llm s log).2.drop log.length
          = (implementation_agent llm t log').2.drop log'.length)
      ∧ (∀ s', (implementation_agent llm s log).1 = Except.ok s' →
          ∃ c, s' = { s with implementation_output := c, current_step := "implementation" }) := by
  intro llm s t log log'
  constructor
  · intro hrd hrs
    have e1 : (implementation_agent llm s log).2
        = log ++ [implementation_call s.design_output s.structure_output] := by
      cases h : llm (implementation_call s.design_output s.structure_output) <;>
        simp [implementation_agent, h]
    have e2 : (implementation_agent llm t log').2
        = log' ++ [implementation_call t.design_output t.structure_output] := by
      cases h : llm (implementation_call t.design_output t.structure_output) <;>
        simp [implementation_agent, h]
    rw [e1, e2, List.drop_left, List.drop_left, hrd, hrs]
  · intro s' h
    cases h' : llm (implementation_call s.design_output s.structure_output) with
    | ok content =>
      simp only [implementation_agent, h', Except.ok.injEq] at h
      exact ⟨content, h.symm⟩
    | error e =>
      simp [implementation_agent, h'] at h

/-- The refinement node's model call depends only on `implementation_output`,
and on success it changes only its own slot and the step marker. -/
theorem stage_rw_refinement :
    ∀ (llm : ModelFn) (s t : AgentState) (log log' : List Call),
      (s.implementation_output = t.implementation_output →
        (refinement_agent llm s log).2.drop log.length
          = (refinement_agent llm t log').2.drop log'.length)
      ∧ (∀ s', (refinement_agent llm s log).1 = Except.ok s' →
          ∃ c, s' = { s with refinement_output := c, current_step := "refinement" }) := by
  intro llm s t log log'
  constructor
  · intro hrd
    have e1 : (refinement_agent llm s log).2 = log ++ [refinement_call s.implementation_output] := by
      cases h : llm (refinement_call s.implementation_output) <;> simp [refinement_agent, h]
    have e2 : (refinement_agent llm t log').2 = log' ++ [refinement_call t.implementation_output] := by
      cases h : llm (refinement_call t.implementation_output) <;> simp [refinement_agent, h]
    rw [e1, e2, List.drop_left, List.drop_left, hrd]
  · intro s' h
    cases h' : llm (refinement_call s.implementation_output) with
    | ok content =>
      simp only [refinement_agent, h', Except.ok.injEq] at h
      exact ⟨content, h.symm⟩
    | error e =>
      simp [refinement_agent, h'] at h

/-- C2 counterexample: with a model that answers every call with the empty
string, every stage completes without error (the run ends successfully with
the marker at the final stage), yet every output slot is empty — so "slot
non-empty iff stage completed without error" fails as stated; it needs the
assumption that model responses are non-empty. -/
theorem C2_counterexample :
    (runPipeline (fun _ => Except.ok "") "ideia").states[1]?
      = some ⟨"ideia", "", "", "", "", "", "discovery", ""⟩
    ∧ (runPipeline (fun _ => Except.ok "") "ideia").result
      = Except.ok ⟨"ideia", "", "", "", "", "", "refinement", ""⟩ :=
  ⟨rfl, rfl⟩

/-- C2 (amended): provided the model never returns empty text, in every state
a pipeline run reaches, stage k's output slot is non-empty exactly when stage
k has completed without error; and each stage's model call is determined by
exactly the inputs the claim lists (discovery by the user input, structure by
the discovery output, design by the structure output, implementation by the
design and structure outputs, refinement by the implementation output), while
a succeeding stage writes only its own slot and the step marker, never
overwriting an earlier stage's slot. -/
theorem C2_slot_invariant :
    (∀ (llm : ModelFn) (input : String),
      (∀ c r, llm c = Except.ok r → r ≠ "") →
      ∀ i s, (runPipeline llm input).states[i]? = some s →
        ((s.discovery_output ≠ "" ↔ 1 ≤ i)
         ∧ (s.structure_output ≠ "" ↔ 2 ≤ i)
         ∧ (s.design_output ≠ "" ↔ 3 ≤ i)
         ∧ (s.implementation_output ≠ "" ↔ 4 ≤ i)
         ∧ (s.refinement_output ≠ "" ↔ 5 ≤ i)))
    ∧ (∀ (llm : ModelFn) (s t : AgentState) (log log' : List Call),
        (s.user_input = t.user_input →
          (discovery_agent llm s log).2.drop log.length
            = (discovery_agent llm t log').2.drop log'.length)
        ∧ (∀ s', (discovery_agent llm s log).1 = Except.ok s' →
            ∃ c, s' = { s with discovery_output := c, current_step := "discovery" }))
    ∧ (∀ (llm : ModelFn) (s t : AgentState) (log log' : List Call),
        (s.discovery_output = t.discovery_output →
          (structure_agent llm s log).2.drop log.length
            = (structure_agent llm t log').2.drop log'.length)
        ∧ (∀ s', (structure_agent llm s log).1 = Except.ok s' →
            ∃ c, s' = { s with structure_output := c, current_step := "structure" }))
    ∧ (∀ (llm : ModelFn) (s t : AgentState) (log log' : List Call),
        (s.structure_output = t.structure_output →
          (design_agent llm s log).2.drop log.length
            = (design_agent llm t log').2.drop log'.length)
        ∧ (∀ s', (design_agent llm s log).1 = Except.ok s' →
            ∃ c, s' = { s with design_output := c, current_step := "design" }))
    ∧ (∀ (llm : ModelFn) (s t : AgentState) (log log' : List Call),
        (s.design_output = t.design_output → s.structure_output = t.structure_output →
          (implementation_agent llm s log).2.drop log.length
            = (implementation_agent llm t log').2.drop log'.length)
        ∧ (∀ s', (implementation_agent llm s log).1 = Except.ok s' →
            ∃ c, s' = { s with implementation_output := c, current_step := "implementation" }))
    ∧ (∀ (llm : ModelFn) (s t : AgentState) (log log' : List Call),
        (s.implementation_output = t.implementation_output →
          (refinement_agent llm s log).2.drop log.length
            = (refinement_agent llm t log').2.drop log'.length)
        ∧ (∀ s', (refinement_agent llm s log).1 = Except.ok s' →
            ∃ c, s' = { s with refinement_output := c, current_step := "refinement" })) :=
  ⟨slot_invariant_states, stage_rw_discovery, stage_rw_structure, stage_rw_design,
   stage_rw_implementation, stage_rw_refinement⟩

/-- Witness for C2 with a constant non-empty stub at state index 3: the first
three slots are populated, the later two are not. -/
theorem C2_witness :
    (∀ c r, ((fun _ => Except.ok "saida") : ModelFn) c = Except.ok r → r ≠ "")
    ∧ (runPipeline (fun _ => Except.ok "saida") "ideia").states[3]?
        = some ⟨"ideia", "saida", "saida", "saida", "", "", "design", ""⟩
    ∧ (((⟨"ideia", "saida", "saida", "saida", "", "", "design", ""⟩ : AgentState).discovery_output ≠ "" ↔ 1 ≤ 3)
       ∧ ((⟨"ideia", "saida", "saida", "saida", "", "", "design", ""⟩ : AgentState).structure_output ≠ "" ↔ 2 ≤ 3)
       ∧ ((⟨"ideia", "saida", "saida", "saida", "", "", "design", ""⟩ : AgentState).design_output ≠ "" ↔ 3 ≤ 3)
       ∧ ((⟨"ideia", "saida", "saida", "saida", "", "", "design", ""⟩ : AgentState).implementation_output ≠ "" ↔ 4 ≤ 3)
       ∧ ((⟨"ideia", "saida", "saida", "saida", "", "", "design", ""⟩ : AgentState).refinement_output ≠ "" ↔ 5 ≤ 3)) := by
  have hne : ∀ c r, ((fun _ => Except.ok "saida") : ModelFn) c = Except.ok r → r ≠ "" := by
    intro c r h
    injection h with h'
    subst h'
    decide
  exact ⟨hne, rfl,
    C2_slot_invariant.1 (fun _ => Except.ok "saida") "ideia" hne 3
      ⟨"ideia", "saida", "saida", "saida", "", "", "design", ""⟩ rfl⟩

end Seren
